import Mathlib

/-!
Shallow embedding of the LCShim syscall bridge of the containerization
repository: `vminitd/Sources/LCShim/syscall.c` together with its header
`vminitd/Sources/LCShim/include/syscall.h`.

The kernel is modelled as an oracle mapping each request to a raw result
and an error code.  Each of the four C wrappers becomes a pure function
of its arguments and that oracle; besides the `int` returned to the
caller and the error code left after the call, the embedding records the
list of kernel requests the call issues, so that pass-through, framing
and statelessness become provable statements.  The implicit C conversion
from the `long` returned by the variadic `syscall` primitive to the
wrappers' `int` return type is modelled by two's-complement reduction
into the 32-bit signed range, as performed by the target compilers.
-/

namespace LCShim

/-- Kernel UAPI constant `PR_SET_CHILD_SUBREAPER` from `<sys/prctl.h>`. -/
def PR_SET_CHILD_SUBREAPER : Int := 36

/-- The compile-time C-library environment seen by `syscall.h`:
`SYS_pivot_root` is always provided by `<sys/syscall.h>`, while the two
pidfd syscall numbers may be absent from a minimal libc (musl), in which
case the header supplies fixed fallback constants. -/
structure Libc where
  sys_pivot_root : Int
  sys_pidfd_open? : Option Int
  sys_pidfd_getfd? : Option Int

/-- Header lines 26-28: when the libc does not define `SYS_pidfd_open`,
the fallback value 434 is used; otherwise the libc's value stands. -/
def SYS_pidfd_open (L : Libc) : Int := L.sys_pidfd_open?.getD 434

/-- Header lines 32-34: when the libc does not define `SYS_pidfd_getfd`,
the fallback value 438 is used; otherwise the libc's value stands. -/
def SYS_pidfd_getfd (L : Libc) : Int := L.sys_pidfd_getfd?.getD 438

/-- An argument handed to the variadic `syscall` primitive: a path
pointer (modelled by the pointed-to string) or an integer. -/
inductive Arg where
  | path (p : String)
  | int (n : Int)
deriving DecidableEq

/-- One kernel request issued by the layer: a raw numbered syscall with
its argument list, or a `prctl` request with its option and value. -/
inductive Request where
  | sys (num : Int) (args : List Arg)
  | prctl (opt arg2 : Int)
deriving DecidableEq

/-- The raw outcome of one kernel request: the value the libc primitive
returns and the process-wide error code after the call. -/
structure SyscallRet where
  ret : Int
  errno : Int
deriving DecidableEq

/-- The kernel as an oracle answering each request. -/
abbrev Kernel : Type := Request → SyscallRet

/-- Reduction of a C `long` value into the `int` range: the implicit
two's-complement conversion performed by the wrappers' return type
(2147483648 is 2 to the 31st, 4294967296 is 2 to the 32nd). -/
def toInt32 (x : Int) : Int := (x + 2147483648) % 4294967296 - 2147483648

/-- Everything one call into the layer yields: the `int` returned to
the caller, the error code after the call, and the list of kernel
requests the call issued. -/
structure CallOut where
  ret : Int
  errno : Int
  reqs : List Request
deriving DecidableEq

/-- `syscall.c` lines 23-25: forward both paths to the `pivot_root`
syscall and return its result (a `long` narrowed to `int`). -/
def CZ_pivot_root (L : Libc) (k : Kernel) (new_root put_old : String) : CallOut :=
  { ret := toInt32 (k (Request.sys L.sys_pivot_root [Arg.path new_root, Arg.path put_old])).ret,
    errno := (k (Request.sys L.sys_pivot_root [Arg.path new_root, Arg.path put_old])).errno,
    reqs := [Request.sys L.sys_pivot_root [Arg.path new_root, Arg.path put_old]] }

/-- `syscall.c` line 27: issue `prctl(PR_SET_CHILD_SUBREAPER, 1)` and
return its result (`prctl` already returns `int`). -/
def CZ_set_sub_reaper (k : Kernel) : CallOut :=
  { ret := (k (Request.prctl PR_SET_CHILD_SUBREAPER 1)).ret,
    errno := (k (Request.prctl PR_SET_CHILD_SUBREAPER 1)).errno,
    reqs := [Request.prctl PR_SET_CHILD_SUBREAPER 1] }

/-- `syscall.c` lines 29-32: forward pid and flags to the `pidfd_open`
syscall and return its result (a `long` narrowed to `int`). -/
def CZ_pidfd_open (L : Libc) (k : Kernel) (pid flags : Int) : CallOut :=
  { ret := toInt32 (k (Request.sys (SYS_pidfd_open L) [Arg.int pid, Arg.int flags])).ret,
    errno := (k (Request.sys (SYS_pidfd_open L) [Arg.int pid, Arg.int flags])).errno,
    reqs := [Request.sys (SYS_pidfd_open L) [Arg.int pid, Arg.int flags]] }

/-- `syscall.c` lines 34-37: forward pidfd, targetfd and flags to the
`pidfd_getfd` syscall and return its result (a `long` narrowed to
`int`). -/
def CZ_pidfd_getfd (L : Libc) (k : Kernel) (pidfd targetfd flags : Int) : CallOut :=
  { ret := toInt32 (k (Request.sys (SYS_pidfd_getfd L) [Arg.int pidfd, Arg.int targetfd, Arg.int flags])).ret,
    errno := (k (Request.sys (SYS_pidfd_getfd L) [Arg.int pidfd, Arg.int targetfd, Arg.int flags])).errno,
    reqs := [Request.sys (SYS_pidfd_getfd L) [Arg.int pidfd, Arg.int targetfd, Arg.int flags]] }

/-- The four operations of the layer together with their arguments. -/
inductive Op where
  | pivotRoot (new_root put_old : String)
  | setSubReaper
  | pidfdOpen (pid flags : Int)
  | pidfdGetfd (pidfd targetfd flags : Int)
deriving DecidableEq

/-- Dispatch an operation to its wrapper. -/
def runOp (L : Libc) (k : Kernel) : Op → CallOut
  | Op.pivotRoot nr po => CZ_pivot_root L k nr po
  | Op.setSubReaper => CZ_set_sub_reaper k
  | Op.pidfdOpen pid fl => CZ_pidfd_open L k pid fl
  | Op.pidfdGetfd pfd tfd fl => CZ_pidfd_getfd L k pfd tfd fl

/-- The single kernel request an operation issues. -/
def opReq (L : Libc) : Op → Request
  | Op.pivotRoot nr po => Request.sys L.sys_pivot_root [Arg.path nr, Arg.path po]
  | Op.setSubReaper => Request.prctl PR_SET_CHILD_SUBREAPER 1
  | Op.pidfdOpen pid fl => Request.sys (SYS_pidfd_open L) [Arg.int pid, Arg.int fl]
  | Op.pidfdGetfd pfd tfd fl => Request.sys (SYS_pidfd_getfd L) [Arg.int pfd, Arg.int tfd, Arg.int fl]

/-- The raw kernel result for an operation. -/
def kret (L : Libc) (k : Kernel) (o : Op) : Int := (k (opReq L o)).ret

/-- The kernel-set error code for an operation. -/
def kerrno (L : Libc) (k : Kernel) (o : Op) : Int := (k (opReq L o)).errno

/-- The kernel requests issued by a sequence of calls into the layer. -/
def runTrace (L : Libc) (k : Kernel) : List Op → List Request
  | [] => []
  | o :: rest => (runOp L k o).reqs ++ runTrace L k rest

/-- Modelled kernel semantics of the child-subreaper flag: a
`prctl(PR_SET_CHILD_SUBREAPER, v)` request sets the flag to the truth
value of `v` being nonzero, and no other request kind this layer can
issue touches the flag. -/
def subreaperAfter (flag : Bool) : Request → Bool
  | Request.prctl opt v => if opt = PR_SET_CHILD_SUBREAPER then decide (v ≠ 0) else flag
  | Request.sys _ _ => flag

/-- The subreaper flag after a trace of requests is processed. -/
def subreaperAfterTrace (flag : Bool) (t : List Request) : Bool :=
  t.foldl subreaperAfter flag

/-- A musl-like libc: `pivot_root` numbered as on x86-64, and neither
pidfd syscall number defined. -/
def muslLibc : Libc :=
  { sys_pivot_root := 155, sys_pidfd_open? := none, sys_pidfd_getfd? := none }

/-- A kernel oracle that grants every request with result 0. -/
def kernelOk : Kernel := fun _ => { ret := 0, errno := 0 }

/-- A kernel oracle that refuses every request with EINVAL. -/
def kernelFail : Kernel := fun _ => { ret := -1, errno := 22 }

/-- A kernel oracle that grants every request with descriptor 5. -/
def kernelFd : Kernel := fun _ => { ret := 5, errno := 0 }

/-- In-range `long` values pass through the narrowing unchanged. -/
theorem toInt32_eq_self {x : Int} (h1 : -2147483648 ≤ x) (h2 : x < 2147483648) :
    toInt32 x = x := by
  unfold toInt32
  omega

/-- Each operation issues exactly its designated request. -/
theorem runOp_reqs (L : Libc) (k : Kernel) (o : Op) :
    (runOp L k o).reqs = [opReq L o] := by
  cases o <;> rfl

/-- Each operation leaves the error code exactly as the kernel set it. -/
theorem runOp_errno (L : Libc) (k : Kernel) (o : Op) :
    (runOp L k o).errno = kerrno L k o := by
  cases o <;> rfl

/-- Each operation returns the kernel result, narrowed for the three
syscall-based wrappers and verbatim for the prctl-based one. -/
theorem runOp_ret_cases (L : Libc) (k : Kernel) (o : Op) :
    (runOp L k o).ret = toInt32 (kret L k o) ∨ (runOp L k o).ret = kret L k o := by
  cases o with
  | pivotRoot nr po => exact Or.inl rfl
  | setSubReaper => exact Or.inr rfl
  | pidfdOpen pid fl => exact Or.inl rfl
  | pidfdGetfd pfd tfd fl => exact Or.inl rfl

/-- No request issued by the layer clears a set subreaper flag. -/
theorem subreaperAfter_opReq (L : Libc) (o : Op) :
    subreaperAfter true (opReq L o) = true := by
  cases o <;> rfl

/-- A set subreaper flag survives any trace of the layer's calls. -/
theorem subreaperAfterTrace_true (L : Libc) (k : Kernel) (ops : List Op) :
    subreaperAfterTrace true (runTrace L k ops) = true := by
  induction ops with
  | nil => rfl
  | cons o rest ih =>
      simp only [runTrace, runOp_reqs, List.singleton_append, subreaperAfterTrace,
        List.foldl_cons]
      rw [subreaperAfter_opReq]
      exact ih

/-- Claim C1: `CZ_pivot_root` is a pure pass-through: it issues exactly
one `pivot_root` request carrying both path arguments unmodified and in
order, returns the kernel's result (so 0 on success and -1 on failure,
both fixed by the narrowing), and leaves the error code exactly as the
kernel set it, performing no validation of its own. -/
theorem CZ_pivot_root_pass_through (L : Libc) (k : Kernel) (new_root put_old : String) :
    CZ_pivot_root L k new_root put_old =
      { ret := toInt32 (kret L k (Op.pivotRoot new_root put_old)),
        errno := kerrno L k (Op.pivotRoot new_root put_old),
        reqs := [Request.sys L.sys_pivot_root [Arg.path new_root, Arg.path put_old]] } ∧
    toInt32 0 = 0 ∧ toInt32 (-1) = -1 :=
  ⟨rfl, by decide, by decide⟩

/-- Claim C2: `CZ_set_sub_reaper` takes no operation arguments, issues
exactly the request `prctl(PR_SET_CHILD_SUBREAPER, 1)` marking the
caller as child subreaper, and returns the kernel's result verbatim —
0 on success, -1 on failure — with the kernel-set error code. -/
theorem CZ_set_sub_reaper_spec (k : Kernel) :
    CZ_set_sub_reaper k =
      { ret := (k (Request.prctl PR_SET_CHILD_SUBREAPER 1)).ret,
        errno := (k (Request.prctl PR_SET_CHILD_SUBREAPER 1)).errno,
        reqs := [Request.prctl PR_SET_CHILD_SUBREAPER 1] } ∧
    PR_SET_CHILD_SUBREAPER = 36 :=
  ⟨rfl, rfl⟩

/-- Claim C3: when the kernel answers the `pidfd_open` request with a
descriptor in the int range or with -1, `CZ_pidfd_open` hands that
value to the caller unchanged — a non-negative descriptor or -1, no
third outcome — forwards `pid` and `flags` unmodified in a single
request, and keeps the kernel's error code verbatim. -/
theorem CZ_pidfd_open_two_outcomes (L : Libc) (k : Kernel) (pid flags : Int)
    (hk : kret L k (Op.pidfdOpen pid flags) = -1 ∨
      (0 ≤ kret L k (Op.pidfdOpen pid flags) ∧
        kret L k (Op.pidfdOpen pid flags) < 2147483648)) :
    (CZ_pidfd_open L k pid flags).ret = kret L k (Op.pidfdOpen pid flags) ∧
    ((CZ_pidfd_open L k pid flags).ret = -1 ∨ 0 ≤ (CZ_pidfd_open L k pid flags).ret) ∧
    (CZ_pidfd_open L k pid flags).errno = kerrno L k (Op.pidfdOpen pid flags) ∧
    (CZ_pidfd_open L k pid flags).reqs =
      [Request.sys (SYS_pidfd_open L) [Arg.int pid, Arg.int flags]] := by
  have hret : (CZ_pidfd_open L k pid flags).ret =
      toInt32 (kret L k (Op.pidfdOpen pid flags)) := rfl
  have heq : (CZ_pidfd_open L k pid flags).ret = kret L k (Op.pidfdOpen pid flags) := by
    rw [hret]
    rcases hk with h | ⟨h1, h2⟩
    · rw [h]; decide
    · exact toInt32_eq_self (by omega) h2
  refine ⟨heq, ?_, rfl, rfl⟩
  rw [heq]
  rcases hk with h | ⟨h1, _⟩
  · exact Or.inl h
  · exact Or.inr h1

/-- Witness for C3 at a concrete kernel that grants descriptor 5. -/
theorem CZ_pidfd_open_two_outcomes_witness :
    (CZ_pidfd_open muslLibc kernelFd 7 0).ret = kret muslLibc kernelFd (Op.pidfdOpen 7 0) ∧
    ((CZ_pidfd_open muslLibc kernelFd 7 0).ret = -1 ∨
      0 ≤ (CZ_pidfd_open muslLibc kernelFd 7 0).ret) ∧
    (CZ_pidfd_open muslLibc kernelFd 7 0).errno = kerrno muslLibc kernelFd (Op.pidfdOpen 7 0) ∧
    (CZ_pidfd_open muslLibc kernelFd 7 0).reqs =
      [Request.sys (SYS_pidfd_open muslLibc) [Arg.int 7, Arg.int 0]] :=
  CZ_pidfd_open_two_outcomes muslLibc kernelFd 7 0 (Or.inr ⟨by decide, by decide⟩)

/-- Claim C4: when the kernel answers the `pidfd_getfd` request with a
descriptor in the int range or with -1, `CZ_pidfd_getfd` hands that
value to the caller unchanged — a new non-negative descriptor or -1,
nothing else — forwards `pidfd`, `targetfd` and `flags` unmodified in a
single request, and keeps the kernel's error code verbatim (the race
case being just the kernel's plain -1 answer). -/
theorem CZ_pidfd_getfd_two_outcomes (L : Libc) (k : Kernel) (pidfd targetfd flags : Int)
    (hk : kret L k (Op.pidfdGetfd pidfd targetfd flags) = -1 ∨
      (0 ≤ kret L k (Op.pidfdGetfd pidfd targetfd flags) ∧
        kret L k (Op.pidfdGetfd pidfd targetfd flags) < 2147483648)) :
    (CZ_pidfd_getfd L k pidfd targetfd flags).ret =
      kret L k (Op.pidfdGetfd pidfd targetfd flags) ∧
    ((CZ_pidfd_getfd L k pidfd targetfd flags).ret = -1 ∨
      0 ≤ (CZ_pidfd_getfd L k pidfd targetfd flags).ret) ∧
    (CZ_pidfd_getfd L k pidfd targetfd flags).errno =
      kerrno L k (Op.pidfdGetfd pidfd targetfd flags) ∧
    (CZ_pidfd_getfd L k pidfd targetfd flags).reqs =
      [Request.sys (SYS_pidfd_getfd L) [Arg.int pidfd, Arg.int targetfd, Arg.int flags]] := by
  have hret : (CZ_pidfd_getfd L k pidfd targetfd flags).ret =
      toInt32 (kret L k (Op.pidfdGetfd pidfd targetfd flags)) := rfl
  have heq : (CZ_pidfd_getfd L k pidfd targetfd flags).ret =
      kret L k (Op.pidfdGetfd pidfd targetfd flags) := by
    rw [hret]
    rcases hk with h | ⟨h1, h2⟩
    · rw [h]; decide
    · exact toInt32_eq_self (by omega) h2
  refine ⟨heq, ?_, rfl, rfl⟩
  rw [heq]
  rcases hk with h | ⟨h1, _⟩
  · exact Or.inl h
  · exact Or.inr h1

/-- Witness for C4 at a concrete kernel that refuses with EINVAL. -/
theorem CZ_pidfd_getfd_two_outcomes_witness :
    (CZ_pidfd_getfd muslLibc kernelFail 3 4 0).ret =
      kret muslLibc kernelFail (Op.pidfdGetfd 3 4 0) ∧
    ((CZ_pidfd_getfd muslLibc kernelFail 3 4 0).ret = -1 ∨
      0 ≤ (CZ_pidfd_getfd muslLibc kernelFail 3 4 0).ret) ∧
    (CZ_pidfd_getfd muslLibc kernelFail 3 4 0).errno =
      kerrno muslLibc kernelFail (Op.pidfdGetfd 3 4 0) ∧
    (CZ_pidfd_getfd muslLibc kernelFail 3 4 0).reqs =
      [Request.sys (SYS_pidfd_getfd muslLibc) [Arg.int 3, Arg.int 4, Arg.int 0]] :=
  CZ_pidfd_getfd_two_outcomes muslLibc kernelFail 3 4 0 (Or.inl (by decide))

/-- Claim C5: the pidfd syscall numbers are supplied as fallbacks
exactly when the libc does not define them — an undefined
`SYS_pidfd_open` becomes 434 and an undefined `SYS_pidfd_getfd`
becomes 438, while libc-defined values stand untouched. -/
theorem pidfd_syscall_number_fallbacks (L : Libc) (n m : Int)
    (ho : L.sys_pidfd_open? = none) (hg : L.sys_pidfd_getfd? = none) :
    SYS_pidfd_open L = 434 ∧ SYS_pidfd_getfd L = 438 ∧
    SYS_pidfd_open
      { sys_pivot_root := L.sys_pivot_root, sys_pidfd_open? := some n,
        sys_pidfd_getfd? := some m } = n ∧
    SYS_pidfd_getfd
      { sys_pivot_root := L.sys_pivot_root, sys_pidfd_open? := some n,
        sys_pidfd_getfd? := some m } = m := by
  refine ⟨?_, ?_, rfl, rfl⟩
  · simp [SYS_pidfd_open, ho]
  · simp [SYS_pidfd_getfd, hg]

/-- Witness for C5 at the musl-like libc with sample numbers 500, 501. -/
theorem pidfd_syscall_number_fallbacks_witness :
    SYS_pidfd_open muslLibc = 434 ∧ SYS_pidfd_getfd muslLibc = 438 ∧
    SYS_pidfd_open
      { sys_pivot_root := muslLibc.sys_pivot_root, sys_pidfd_open? := some 500,
        sys_pidfd_getfd? := some 501 } = 500 ∧
    SYS_pidfd_getfd
      { sys_pivot_root := muslLibc.sys_pivot_root, sys_pidfd_open? := some 500,
        sys_pidfd_getfd? := some 501 } = 501 :=
  pidfd_syscall_number_fallbacks muslLibc 500 501 rfl rfl

/-- Claim C6: for every operation, kernel-reported failure is signaled
in exactly one uniform way: when the kernel answers -1 the caller
receives -1, the error code reaching the caller is verbatim the
kernel's, and exactly one request is issued — no validation, no retry,
no translation. -/
theorem uniform_failure_signaling (L : Libc) (k : Kernel) (o : Op)
    (hfail : kret L k o = -1) :
    (runOp L k o).ret = -1 ∧
    (runOp L k o).errno = kerrno L k o ∧
    (runOp L k o).reqs = [opReq L o] := by
  refine ⟨?_, runOp_errno L k o, runOp_reqs L k o⟩
  rcases runOp_ret_cases L k o with h | h
  · rw [h, hfail]; decide
  · rw [h, hfail]

/-- Witness for C6 at a concrete kernel that refuses with EINVAL. -/
theorem uniform_failure_signaling_witness :
    (runOp muslLibc kernelFail (Op.pivotRoot "/mnt" "old")).ret = -1 ∧
    (runOp muslLibc kernelFail (Op.pivotRoot "/mnt" "old")).errno =
      kerrno muslLibc kernelFail (Op.pivotRoot "/mnt" "old") ∧
    (runOp muslLibc kernelFail (Op.pivotRoot "/mnt" "old")).reqs =
      [opReq muslLibc (Op.pivotRoot "/mnt" "old")] :=
  uniform_failure_signaling muslLibc kernelFail (Op.pivotRoot "/mnt" "old") rfl

/-- Claim C7: the layer keeps no state of its own — each call's outcome
is a function of its arguments and the kernel's answer alone, so two
calls with equal arguments and equal kernel responses on the issued
request have equal outcomes. -/
theorem stateless_determinism (L : Libc) (k1 k2 : Kernel) (o : Op)
    (h : k1 (opReq L o) = k2 (opReq L o)) :
    runOp L k1 o = runOp L k2 o := by
  cases o <;>
    simp_all [runOp, CZ_pivot_root, CZ_set_sub_reaper, CZ_pidfd_open, CZ_pidfd_getfd, opReq]

/-- Witness for C7 at a concrete operation and two syntactically
distinct but agreeing kernel oracles. -/
theorem stateless_determinism_witness :
    runOp muslLibc kernelOk (Op.pidfdOpen 9 0) =
      runOp muslLibc (fun _ => { ret := 0, errno := 0 }) (Op.pidfdOpen 9 0) :=
  stateless_determinism muslLibc kernelOk (fun _ => { ret := 0, errno := 0 })
    (Op.pidfdOpen 9 0) rfl

/-- Claim C8: the subreaper mark is irreversible through this
interface — the only prctl request any operation can issue carries
option `PR_SET_CHILD_SUBREAPER` with set-value 1, and across any
sequence of calls into the layer a set flag is never unset. -/
theorem subreaper_irreversible (L : Libc) (k : Kernel) (ops : List Op) (o : Op)
    (opt v : Int) (h : opReq L o = Request.prctl opt v) :
    opt = PR_SET_CHILD_SUBREAPER ∧ v = 1 ∧
    subreaperAfterTrace true (runTrace L k ops) = true := by
  have hov : opt = PR_SET_CHILD_SUBREAPER ∧ v = 1 := by
    cases o with
    | pivotRoot nr po => exact absurd h (by simp [opReq])
    | setSubReaper =>
        injection h with h1 h2
        exact ⟨h1.symm, h2.symm⟩
    | pidfdOpen pid fl => exact absurd h (by simp [opReq])
    | pidfdGetfd pfd tfd fl => exact absurd h (by simp [opReq])
  exact ⟨hov.1, hov.2, subreaperAfterTrace_true L k ops⟩

/-- Witness for C8 on a concrete three-call sequence. -/
theorem subreaper_irreversible_witness :
    PR_SET_CHILD_SUBREAPER = PR_SET_CHILD_SUBREAPER ∧ (1 : Int) = 1 ∧
    subreaperAfterTrace true
      (runTrace muslLibc kernelOk
        [Op.setSubReaper, Op.pidfdOpen 2 0, Op.pivotRoot "/mnt" "old"]) = true :=
  subreaper_irreversible muslLibc kernelOk
    [Op.setSubReaper, Op.pidfdOpen 2 0, Op.pivotRoot "/mnt" "old"]
    Op.setSubReaper PR_SET_CHILD_SUBREAPER 1 rfl

/-- Claim C9: every operation issues exactly one kernel request per
call, and that request is fully determined by the operation's
arguments — the caller's integers and paths passed straight through,
with no close, duplicate or any other request besides it. -/
theorem single_request_frame (L : Libc) (k : Kernel) (o : Op) (nr po : String)
    (pid fl pfd tfd gfl : Int) :
    (runOp L k o).reqs = [opReq L o] ∧
    opReq L (Op.pivotRoot nr po) = Request.sys L.sys_pivot_root [Arg.path nr, Arg.path po] ∧
    opReq L Op.setSubReaper = Request.prctl PR_SET_CHILD_SUBREAPER 1 ∧
    opReq L (Op.pidfdOpen pid fl) = Request.sys (SYS_pidfd_open L) [Arg.int pid, Arg.int fl] ∧
    opReq L (Op.pidfdGetfd pfd tfd gfl) =
      Request.sys (SYS_pidfd_getfd L) [Arg.int pfd, Arg.int tfd, Arg.int gfl] :=
  ⟨runOp_reqs L k o, rfl, rfl, rfl, rfl⟩

/-- Claim C10: the three wrappers built on the variadic syscall
primitive deliver the kernel's `long` result reduced to the 32-bit
signed int range, and every in-range result — 0, -1 and every valid
descriptor among them — comes through unchanged. -/
theorem int_truncation (L : Libc) (k : Kernel) (nr po : String)
    (pid fl pfd tfd gfl r : Int)
    (h1 : -2147483648 ≤ r) (h2 : r < 2147483648) :
    (CZ_pivot_root L k nr po).ret = toInt32 (kret L k (Op.pivotRoot nr po)) ∧
    (CZ_pidfd_open L k pid fl).ret = toInt32 (kret L k (Op.pidfdOpen pid fl)) ∧
    (CZ_pidfd_getfd L k pfd tfd gfl).ret = toInt32 (kret L k (Op.pidfdGetfd pfd tfd gfl)) ∧
    toInt32 r = r :=
  ⟨rfl, rfl, rfl, toInt32_eq_self h1 h2⟩

/-- Witness for C10 at concrete arguments and the in-range value 5. -/
theorem int_truncation_witness :
    (CZ_pivot_root muslLibc kernelOk "/mnt" "old").ret =
      toInt32 (kret muslLibc kernelOk (Op.pivotRoot "/mnt" "old")) ∧
    (CZ_pidfd_open muslLibc kernelOk 7 0).ret =
      toInt32 (kret muslLibc kernelOk (Op.pidfdOpen 7 0)) ∧
    (CZ_pidfd_getfd muslLibc kernelOk 3 4 0).ret =
      toInt32 (kret muslLibc kernelOk (Op.pidfdGetfd 3 4 0)) ∧
    toInt32 5 = 5 :=
  int_truncation muslLibc kernelOk "/mnt" "old" 7 0 3 4 0 5 (by decide) (by decide)

end LCShim
